import Mathlib

/-!
Shallow embedding of the CQRS mediator core (`src/cqrs/mediator.py` and
`src/cqrs/dispatcher/dispatcher.py`).

The embedding has two layers:

* a *trace* layer: each operation is a pure function returning its outcome
  (`Except Err _`, mirroring Python exception propagation) together with the
  list of observable actions it performed (container resolutions, handler
  invocations, emitter calls, warning logs), in order;
* a *heap* layer (further below) for the aliasing/snapshot claims: Python
  lists are references into an explicit store, so that "mutating the
  handler's accumulator after dispatch" and "draining a copy" are statable.

`RequestMap`, `EventMap` and `MiddlewareChain` belong to this repository but
their modules are not among the given sources; they are modelled from the
spec (their doc comments say so).  The DI container and the `EventEmitter`
are external collaborators and enter as oracle functions.
-/

namespace Cqrs

/-- Python runtime values.  A value's identity is its concrete type
(`type(x)`), modelled as a numeric type identity `ty`; `payload`
distinguishes values of the same type. -/
structure PyObj where
  ty : Nat
  payload : Nat
deriving DecidableEq, Repr

/-- Python exceptions that can cross the dispatch layer: the Routing Error
raised by `RequestMap.get` on an unbound request type, a Resolution Error
from the container, a handler/middleware exception, or any other exception
an external collaborator raises.  The dispatch layer never constructs or
catches the latter three; they propagate unmodified. -/
inductive Err where
  | routing (ty : Nat)
  | resolution (h : Nat)
  | handlerErr (code : Nat)
  | other (code : Nat)
deriving DecidableEq, Repr

/-- Observable actions of one dispatch/send flow, recorded in execution
order: `resolve h` is a `container.resolve(h)` call, `invoke r` is the
single call of the middleware-wrapped handler entry point on request `r`
(dispatcher.py line 34), `handle h e` is an event handler invocation
`handler.handle(event)` (line 54), `emit e` is an `event_emitter.emit(event)`
call (mediator.py line 69), and `warn ty` is the
`logger.warning("Handlers for event %s not found", type(event).__name__)`
log (lines 59-62), carrying the event's type identity (its `__name__` is a
function of the type). -/
inductive Action where
  | resolve (h : Nat)
  | invoke (r : PyObj)
  | handle (h : Nat) (e : PyObj)
  | emit (e : PyObj)
  | warn (ty : Nat)
deriving DecidableEq, Repr

/-- Modelled from the spec: `RequestMap` (module `cqrs.requests`, not among
the given sources).  Spec 4.1: a static mapping from request-type identity
to exactly one handler-type identity; binding again overwrites
(last-bind-wins).  Bindings are kept most-recent-first so lookup finds the
latest bind, matching dict overwrite semantics. -/
structure RequestMap where
  bindings : List (Nat × Nat)
deriving DecidableEq, Repr

/-- Modelled from the spec: `RequestMap.bind` registers a binding;
last-bind-wins. -/
def RequestMap.bindReq (m : RequestMap) (reqTy handlerTy : Nat) : RequestMap :=
  ⟨(reqTy, handlerTy) :: m.bindings⟩

/-- Modelled from the spec: `RequestMap.get` returns the bound handler type
for a request type and fails with a Routing Error (unbound request type)
when absent (spec 4.3 step 1). -/
def RequestMap.get (m : RequestMap) (ty : Nat) : Except Err Nat :=
  match m.bindings.lookup ty with
  | some h => .ok h
  | none => .error (.routing ty)

/-- Modelled from the spec: `EventMap` (module `cqrs.events`, not among the
given sources).  Spec 4.1/3: a static mapping from event-type identity to an
ordered, possibly empty collection of handler-type identities (insertion
order = invocation order). -/
structure EventMap where
  bindings : List (Nat × List Nat)
deriving DecidableEq, Repr

/-- Modelled from the spec: `EventMap.bind` appends a handler type to the
ordered collection bound to an event type. -/
def EventMap.bindEv (m : EventMap) (evTy handlerTy : Nat) : EventMap :=
  if (m.bindings.lookup evTy).isSome then
    ⟨m.bindings.map fun p => if p.1 = evTy then (p.1, p.2 ++ [handlerTy]) else p⟩
  else
    ⟨m.bindings ++ [(evTy, [handlerTy])]⟩

/-- Modelled from the spec: `EventMap.get` returns the ordered handler types
bound to an event type, empty when none are bound (absence is not an
error). -/
def EventMap.get (m : EventMap) (ty : Nat) : List Nat :=
  (m.bindings.lookup ty).getD []

/-- A call of a command handler's entry point.  The handler's internal
`events` accumulator is threaded explicitly: the call receives the
accumulator's current contents and returns (outcome, contents afterwards).
The outcome is the response (`Option PyObj`: `Response | None`) or a raised
exception. -/
def HandlerCall : Type :=
  PyObj → List PyObj → Except Err (Option PyObj) × List PyObj

/-- Modelled from the spec: a middleware wraps the next callable in the
chain (spec 4.2). -/
def Middleware : Type :=
  HandlerCall → HandlerCall

/-- Modelled from the spec: `MiddlewareChain` (module `cqrs.middlewares`,
not among the given sources), an ordered list of middlewares. -/
structure MiddlewareChain where
  middlewares : List Middleware

/-- Modelled from the spec: `MiddlewareChain.wrap` composes the middlewares
around the entry point so the first-registered middleware is outermost
(onion composition); an empty chain's wrap is the identity (spec 4.2). -/
def MiddlewareChain.wrap (c : MiddlewareChain) (entry : HandlerCall) : HandlerCall :=
  c.middlewares.foldr (fun m acc => m acc) entry

/-- A command handler as resolved by the container: a `handle` entry point
and the contents `events0` of its `events` accumulator at resolution time
(normally `[]` for a freshly constructed handler). -/
structure RequestHandler where
  handle : HandlerCall
  events0 : List PyObj

/-- The value-level view of `RequestDispatchResult` (dispatcher.py lines
14-16): a pydantic model pairing the response (`Response | None`) with the
handler's accumulated events. -/
structure RequestDispatchResult where
  response : Option PyObj
  events : List PyObj
deriving DecidableEq, Repr

/-- `RequestDispatcher.dispatch` (dispatcher.py lines 30-35):
look up the handler type for `type(request)` in the request map, resolve an
instance through the container oracle, wrap its `handle` with the middleware
chain, invoke the wrapped entry point once with the request, and pair the
response with the handler's accumulated events.  Exceptions at any step
propagate and abort the remaining steps.  The trace records the
`container.resolve` call and the invocation of the wrapped entry point. -/
def requestDispatch (rm : RequestMap) (resolve : Nat → Except Err RequestHandler)
    (chain : MiddlewareChain) (request : PyObj) :
    Except Err RequestDispatchResult × List Action :=
  match rm.get request.ty with
  | .error ex => (.error ex, [])
  | .ok handler_type =>
    match resolve handler_type with
    | .error ex => (.error ex, [Action.resolve handler_type])
    | .ok handler =>
      let wrapped_handle := chain.wrap handler.handle
      match wrapped_handle request handler.events0 with
      | (.error ex, _) => (.error ex, [Action.resolve handler_type, Action.invoke request])
      | (.ok resp, evs) =>
        (.ok ⟨resp, evs⟩, [Action.resolve handler_type, Action.invoke request])

/-- The `while events: event = events.pop(); await emitter.emit(event)` loop
of `RequestMediator._send_events` (mediator.py lines 67-69): while the list
is nonempty, remove its last element, then emit it, awaiting each emit
before the next; an exception from `emit` propagates and stops the loop. -/
def drainLoop (em : PyObj → Except Err Unit) (events : List PyObj) :
    Except Err Unit × List Action :=
  match events with
  | [] => (.ok (), [])
  | a :: as =>
    let event := (a :: as).getLast (by simp)
    match em event with
    | .error ex => (.error ex, [Action.emit event])
    | .ok _ =>
      let r := drainLoop em (a :: as).dropLast
      (r.1, Action.emit event :: r.2)
termination_by events.length
decreasing_by simp

/-- `RequestMediator._send_events` (mediator.py lines 63-69): return
immediately when no `EventEmitter` is configured, otherwise drain the list
into the emitter. -/
def sendEvents (emitter : Option (PyObj → Except Err Unit)) (events : List PyObj) :
    Except Err Unit × List Action :=
  match emitter with
  | none => (.ok (), [])
  | some em => drainLoop em events

/-- `RequestMediator.send` (mediator.py lines 55-61): dispatch the request;
if the result carries events, pass a copy of the list to `_send_events`
(`.copy()` is the identity on the value level; the heap layer below models
the aliasing); finally return the dispatch result's response.  Exceptions
propagate. -/
def requestSend (rm : RequestMap) (resolve : Nat → Except Err RequestHandler)
    (chain : MiddlewareChain) (emitter : Option (PyObj → Except Err Unit))
    (request : PyObj) : Except Err (Option PyObj) × List Action :=
  match requestDispatch rm resolve chain request with
  | (.error ex, tr) => (.error ex, tr)
  | (.ok dr, tr) =>
    if dr.events.isEmpty then (.ok dr.response, tr)
    else
      match sendEvents emitter dr.events with
      | (.error ex, tr2) => (.error ex, tr ++ tr2)
      | (.ok _, tr2) => (.ok dr.response, tr ++ tr2)

/-- An event handler as resolved by the container: `handle(event)` returns
nothing or raises. -/
structure EventHandler where
  handle : PyObj → Except Err Unit

/-- The `for h_type in handler_types: await self._handle_event(event, h_type)`
loop of `EventDispatcher.dispatch` (dispatcher.py lines 63-64), with
`_handle_event` (lines 52-54) inlined per iteration: resolve the handler
type through the container, then invoke `handler.handle(event)`; each
iteration completes before the next starts, and an exception aborts the
remaining iterations. -/
def eventHandleLoop (resolveE : Nat → Except Err EventHandler) (event : PyObj) :
    List Nat → Except Err Unit × List Action
  | [] => (.ok (), [])
  | h :: rest =>
    match resolveE h with
    | .error ex => (.error ex, [Action.resolve h])
    | .ok hd =>
      match hd.handle event with
      | .error ex => (.error ex, [Action.resolve h, Action.handle h event])
      | .ok _ =>
        let r := eventHandleLoop resolveE event rest
        (r.1, Action.resolve h :: Action.handle h event :: r.2)

/-- `EventDispatcher.dispatch` (dispatcher.py lines 56-64): look up the
ordered handler types bound to `type(event)`; if none, log one warning
naming the event's type; then run the handler loop (which does nothing on an
empty list). -/
def eventDispatch (em : EventMap) (resolveE : Nat → Except Err EventHandler)
    (event : PyObj) : Except Err Unit × List Action :=
  let handler_types := em.get event.ty
  let warnTr := if handler_types.isEmpty then [Action.warn event.ty] else []
  let r := eventHandleLoop resolveE event handler_types
  (r.1, warnTr ++ r.2)

/-!
Heap layer.  Python lists are mutable objects: a list-valued attribute such
as `handler.events` or `dispatch_result.events` is a *reference*.  The store
maps references (allocation indices) to list contents.  Reading an
unallocated reference yields `[]`; writing an unallocated reference is a
no-op, so distinct references never alias.
-/

/-- The store of allocated Python list objects, indexed by allocation
order. -/
structure Store where
  cells : List (List PyObj)
deriving DecidableEq, Repr

/-- Contents of the list object behind reference `r`. -/
def Store.read (σ : Store) (r : Nat) : List PyObj :=
  σ.cells.getD r []

/-- In-place mutation of the list object behind reference `r` (a no-op on an
unallocated reference). -/
def Store.write (σ : Store) (r : Nat) (v : List PyObj) : Store :=
  ⟨σ.cells.set r v⟩

/-- Allocation of a fresh list object with contents `v`; returns the new
store and the fresh reference. -/
def Store.alloc (σ : Store) (v : List PyObj) : Store × Nat :=
  (⟨σ.cells ++ [v]⟩, σ.cells.length)

/-- A heap-level call of a (possibly middleware-wrapped) command handler
entry point: it may read and mutate the store (in particular the handler's
own `events` list) and returns the response or raises. -/
def HeapHandlerCall : Type :=
  PyObj → Store → Except Err (Option PyObj) × Store

/-- Modelled from the spec: a middleware at the heap level (spec 4.2), a
wrapper around the next callable. -/
def HeapMiddleware : Type :=
  HeapHandlerCall → HeapHandlerCall

/-- Modelled from the spec: `MiddlewareChain.wrap` at the heap level, onion
composition with the first-registered middleware outermost. -/
def heapWrap (ms : List HeapMiddleware) (entry : HeapHandlerCall) : HeapHandlerCall :=
  ms.foldr (fun m acc => m acc) entry

/-- A command handler at the heap level: its `handle` entry point and the
reference held by its `events` attribute. -/
structure HeapRequestHandler where
  handle : HeapHandlerCall
  eventsRef : Nat

/-- The heap-level view of `RequestDispatchResult` (dispatcher.py lines
14-16): the pydantic model's `events` field holds a reference to a list
object. -/
structure HRequestDispatchResult where
  response : Option PyObj
  eventsRef : Nat
deriving DecidableEq, Repr

/-- Construction `RequestDispatchResult(response=..., events=handler.events)`
(dispatcher.py line 35).  `RequestDispatchResult` is a `pydantic.BaseModel`
whose `events` field is declared `typing.List[Event]`; pydantic validation
of a list field builds a new list from the input, so the model holds a
fresh reference whose contents are a copy (snapshot) of `handler.events` at
construction time. -/
def mkHDispatchResult (σ : Store) (resp : Option PyObj) (handlerEventsRef : Nat) :
    Store × HRequestDispatchResult :=
  let p := σ.alloc (σ.read handlerEventsRef)
  (p.1, ⟨resp, p.2⟩)

/-- `RequestDispatcher.dispatch` (dispatcher.py lines 30-35) at the heap
level: the same control flow as `requestDispatch`, with the wrapped entry
point mutating the store and the result built by pydantic validation
(`mkHDispatchResult`). -/
def heapRequestDispatch (rm : RequestMap) (resolve : Nat → Except Err HeapRequestHandler)
    (chain : List HeapMiddleware) (request : PyObj) (σ : Store) :
    Except Err HRequestDispatchResult × Store :=
  match rm.get request.ty with
  | .error ex => (.error ex, σ)
  | .ok handler_type =>
    match resolve handler_type with
    | .error ex => (.error ex, σ)
    | .ok handler =>
      let wrapped_handle := heapWrap chain handler.handle
      match wrapped_handle request σ with
      | (.error ex, σ2) => (.error ex, σ2)
      | (.ok resp, σ2) =>
        let p := mkHDispatchResult σ2 resp handler.eventsRef
        (.ok p.2, p.1)

/-- The `while events: event = events.pop(); await emitter.emit(event)` loop
of `RequestMediator._send_events` (mediator.py lines 67-69) at the heap
level: `events` is a reference; `pop()` removes the last element in place
before the emit is awaited.  The trace records the emit calls in order. -/
def heapDrainLoop (em : PyObj → Except Err Unit) (evRef : Nat) (σ : Store) :
    Except Err Unit × Store × List Action :=
  match h : σ.read evRef with
  | [] => (.ok (), σ, [])
  | a :: as =>
    let event := (a :: as).getLast (by simp)
    let σ2 := σ.write evRef (a :: as).dropLast
    match em event with
    | .error ex => (.error ex, σ2, [Action.emit event])
    | .ok _ =>
      let r := heapDrainLoop em evRef σ2
      (r.1, r.2.1, Action.emit event :: r.2.2)
termination_by (σ.read evRef).length
decreasing_by
  have hlt : evRef < σ.cells.length := by
    by_contra hge
    have hnone : σ.cells[evRef]? = none := List.getElem?_eq_none (by omega)
    have : σ.read evRef = [] := by
      simp [Store.read, List.getD_eq_getElem?_getD, hnone]
    simp [h] at this
  have : (σ.write evRef (a :: as).dropLast).read evRef = (a :: as).dropLast := by
    simp [Store.read, Store.write, List.getD_eq_getElem?_getD, List.getElem?_set_self hlt]
  simp [this, h]

/-- `RequestMediator._send_events` (mediator.py lines 63-69) at the heap
level: return immediately when no emitter is configured, otherwise drain
the list behind `evRef`. -/
def heapSendEvents (emitter : Option (PyObj → Except Err Unit)) (evRef : Nat)
    (σ : Store) : Except Err Unit × Store × List Action :=
  match emitter with
  | none => (.ok (), σ, [])
  | some em => heapDrainLoop em evRef σ

/-- The part of `RequestMediator.send` after `dispatch` has returned
(mediator.py lines 58-61), at the heap level: if the dispatch result's
events list is nonempty, allocate `dispatch_result.events.copy()` and drain
the copy; return the dispatch result's response. -/
def heapSendAfterDispatch (emitter : Option (PyObj → Except Err Unit))
    (dr : HRequestDispatchResult) (σ : Store) :
    Except Err (Option PyObj) × Store × List Action :=
  if (σ.read dr.eventsRef).isEmpty then (.ok dr.response, σ, [])
  else
    let p := σ.alloc (σ.read dr.eventsRef)
    match heapSendEvents emitter p.2 p.1 with
    | (.error ex, σ2, tr) => (.error ex, σ2, tr)
    | (.ok _, σ2, tr) => (.ok dr.response, σ2, tr)

/-!
Store lemmas.
-/

/-- A reference whose contents are nonempty is allocated. -/
theorem Store.lt_of_read_ne_nil (σ : Store) (r : Nat) (h : σ.read r ≠ []) :
    r < σ.cells.length := by
  by_contra hge
  have hnone : σ.cells[r]? = none := List.getElem?_eq_none (by omega)
  exact h (by simp [Store.read, List.getD_eq_getElem?_getD, hnone])

/-- Reading back a write to an allocated reference. -/
theorem Store.read_write_self (σ : Store) (r : Nat) (v : List PyObj)
    (h : r < σ.cells.length) : (σ.write r v).read r = v := by
  simp [Store.read, Store.write, List.getD_eq_getElem?_getD, List.getElem?_set_self h]

/-- Writing one reference leaves every other reference unchanged. -/
theorem Store.read_write_ne (σ : Store) (r s : Nat) (v : List PyObj)
    (h : r ≠ s) : (σ.write r v).read s = σ.read s := by
  simp [Store.read, Store.write, List.getD_eq_getElem?_getD, List.getElem?_set_ne h]

/-- Allocation leaves every previously allocated reference unchanged. -/
theorem Store.read_alloc_of_lt (σ : Store) (v : List PyObj) (r : Nat)
    (h : r < σ.cells.length) : (σ.alloc v).1.read r = σ.read r := by
  simp [Store.read, Store.alloc, List.getD_eq_getElem?_getD, List.getElem?_append_left h]

/-- Reading the freshly allocated reference yields the allocated contents. -/
theorem Store.read_alloc_self (σ : Store) (v : List PyObj) :
    (σ.alloc v).1.read (σ.alloc v).2 = v := by
  simp [Store.read, Store.alloc, List.getD_eq_getElem?_getD]

/-!
Drain-loop lemmas.
-/

/-- When every emit succeeds, the pop-loop of `_send_events` emits exactly
the events of the list, most recently produced first (the reverse of the
production order). -/
theorem drainLoop_emits_reverse (em : PyObj → Except Err Unit) (es : List PyObj)
    (hall : ∀ e ∈ es, em e = .ok ()) :
    drainLoop em es = (.ok (), es.reverse.map Action.emit) := by
  induction es using drainLoop.induct em with
  | case1 => simp [drainLoop]
  | case2 a as ev hev hemErr =>
    have hok : em ev = Except.ok () := hall ev (List.getLast_mem _)
    simp [hok] at hemErr
  | case3 a as ev u hok ih =>
    have hall2 : ∀ e ∈ (a :: as).dropLast, em e = Except.ok () :=
      fun e he => hall e ((List.dropLast_prefix (a :: as)).subset he)
    have hsplit : (a :: as).dropLast ++ [ev] = a :: as :=
      List.dropLast_append_getLast (by simp)
    unfold drainLoop
    simp only [hok, ih hall2]
    conv_rhs => rw [← hsplit]
    simp [List.reverse_append]

/-- Characteristic equation of the heap-level pop-loop on an empty
(or unallocated) list: the loop body never runs. -/
theorem heapDrainLoop_nil (em : PyObj → Except Err Unit) (evRef : Nat)
    (σ : Store) (h : σ.read evRef = []) :
    heapDrainLoop em evRef σ = (.ok (), σ, []) := by
  rw [heapDrainLoop]
  split
  · rfl
  · rename_i heq
    rw [h] at heq
    cases heq

/-- Characteristic equation of the heap-level pop-loop on a nonempty list:
pop the last element in place, emit it, and continue on the popped store. -/
theorem heapDrainLoop_cons (em : PyObj → Except Err Unit) (evRef : Nat)
    (σ : Store) (a : PyObj) (as : List PyObj) (h : σ.read evRef = a :: as) :
    heapDrainLoop em evRef σ =
      match em ((a :: as).getLast (by simp)) with
      | .error ex =>
        (.error ex, σ.write evRef (a :: as).dropLast,
          [Action.emit ((a :: as).getLast (by simp))])
      | .ok _ =>
        ((heapDrainLoop em evRef (σ.write evRef (a :: as).dropLast)).1,
          (heapDrainLoop em evRef (σ.write evRef (a :: as).dropLast)).2.1,
          Action.emit ((a :: as).getLast (by simp)) ::
            (heapDrainLoop em evRef (σ.write evRef (a :: as).dropLast)).2.2) := by
  conv_lhs => rw [heapDrainLoop]
  split
  · rename_i heq
    rw [h] at heq
    cases heq
  · rename_i a2 as2 heq
    rw [h] at heq
    cases heq
    rfl

/-- The heap-level pop-loop mutates only the list it drains: every other
reference keeps its contents, whatever the emitter outcomes are. -/
theorem heapDrainLoop_read_other (em : PyObj → Except Err Unit) (evRef r : Nat)
    (hne : r ≠ evRef) :
    ∀ (n : Nat) (σ : Store), (σ.read evRef).length ≤ n →
      ((heapDrainLoop em evRef σ).2.1).read r = σ.read r := by
  intro n
  induction n with
  | zero =>
    intro σ hlen
    have h : σ.read evRef = [] := List.length_eq_zero.mp (Nat.le_zero.mp hlen)
    rw [heapDrainLoop_nil em evRef σ h]
  | succ n ihn =>
    intro σ hlen
    cases hread : σ.read evRef with
    | nil => rw [heapDrainLoop_nil em evRef σ hread]
    | cons a as =>
      have hlt : evRef < σ.cells.length :=
        Store.lt_of_read_ne_nil σ evRef (by simp [hread])
      have hread2 : (σ.write evRef (a :: as).dropLast).read evRef = (a :: as).dropLast :=
        Store.read_write_self σ evRef _ hlt
      have hlen2 : ((σ.write evRef (a :: as).dropLast).read evRef).length ≤ n := by
        rw [hread2]
        have := hlen
        rw [hread] at this
        simp at this ⊢
        omega
      rw [heapDrainLoop_cons em evRef σ a as hread]
      cases hem : em ((a :: as).getLast (by simp)) with
      | error ex =>
        simp only
        exact Store.read_write_ne σ evRef r _ (Ne.symm hne)
      | ok u =>
        simp only
        rw [ihn (σ.write evRef (a :: as).dropLast) hlen2]
        exact Store.read_write_ne σ evRef r _ (Ne.symm hne)

/-- When every emit on the drained list's contents succeeds, the heap-level
pop-loop returns successfully and its trace is one emit per element, most
recently produced first. -/
theorem heapDrainLoop_all_ok (em : PyObj → Except Err Unit) (evRef : Nat) :
    ∀ (n : Nat) (σ : Store), (σ.read evRef).length ≤ n →
      (∀ e ∈ σ.read evRef, em e = .ok ()) →
      (heapDrainLoop em evRef σ).1 = .ok () ∧
      (heapDrainLoop em evRef σ).2.2 = (σ.read evRef).reverse.map Action.emit := by
  intro n
  induction n with
  | zero =>
    intro σ hlen _
    have h : σ.read evRef = [] := List.length_eq_zero.mp (Nat.le_zero.mp hlen)
    rw [heapDrainLoop_nil em evRef σ h, h]
    exact ⟨rfl, rfl⟩
  | succ n ihn =>
    intro σ hlen hall
    cases hread : σ.read evRef with
    | nil =>
      rw [heapDrainLoop_nil em evRef σ hread]
      exact ⟨rfl, rfl⟩
    | cons a as =>
      have hlt : evRef < σ.cells.length :=
        Store.lt_of_read_ne_nil σ evRef (by simp [hread])
      have hread2 : (σ.write evRef (a :: as).dropLast).read evRef = (a :: as).dropLast :=
        Store.read_write_self σ evRef _ hlt
      have hlen2 : ((σ.write evRef (a :: as).dropLast).read evRef).length ≤ n := by
        rw [hread2]
        have := hlen
        rw [hread] at this
        simp at this ⊢
        omega
      have hall2 : ∀ e ∈ (σ.write evRef (a :: as).dropLast).read evRef, em e = .ok () := by
        rw [hread2]
        intro e he
        refine hall e ?_
        rw [hread]
        exact (List.dropLast_prefix (a :: as)).subset he
      have hok : em ((a :: as).getLast (by simp)) = Except.ok () := by
        refine hall _ ?_
        rw [hread]
        exact List.getLast_mem _
      have hsplit : (a :: as).dropLast ++ [(a :: as).getLast (by simp)] = a :: as :=
        List.dropLast_append_getLast (by simp)
      obtain ⟨ih1, ih2⟩ := ihn (σ.write evRef (a :: as).dropLast) hlen2 hall2
      rw [heapDrainLoop_cons em evRef σ a as hread, hok]
      simp only
      refine ⟨ih1, ?_⟩
      rw [ih2, hread2]
      conv_rhs => rw [← hsplit]
      simp [List.reverse_append]

/-!
Event-loop lemmas.
-/

/-- The expected trace of a fully successful event-handler loop: one
container resolution followed by one handler invocation per bound handler
type, in binding order. -/
def eventTrace (event : PyObj) (hs : List Nat) : List Action :=
  hs.foldr (fun h tr => Action.resolve h :: Action.handle h event :: tr) []

/-- When every bound handler resolves and handles the event successfully,
the handler loop succeeds and performs exactly one resolution and one
invocation per handler type, in binding order. -/
theorem eventHandleLoop_all_ok (resolveE : Nat → Except Err EventHandler) (event : PyObj) :
    ∀ (hs : List Nat),
      (∀ h ∈ hs, ∃ hd, resolveE h = .ok hd ∧ hd.handle event = .ok ()) →
      eventHandleLoop resolveE event hs = (.ok (), eventTrace event hs) := by
  intro hs
  induction hs with
  | nil => intro _; simp [eventHandleLoop, eventTrace]
  | cons h rest ih =>
    intro hall
    obtain ⟨hd, hres, hh⟩ := hall h (by simp)
    have hrest := fun x hx => hall x (List.mem_cons_of_mem _ hx)
    simp [eventHandleLoop, eventTrace, hres, hh, ih hrest]

/-- When the container fails to resolve one of the bound handler types, the
handler loop stops at that resolution: the earlier handlers ran, the failing
resolution is the last action, and no later handler is resolved or
invoked. -/
theorem eventHandleLoop_abort_resolve (resolveE : Nat → Except Err EventHandler)
    (event : PyObj) (h0 : Nat) (post : List Nat) (ex : Err)
    (hfail : resolveE h0 = .error ex) :
    ∀ (pre : List Nat),
      (∀ h ∈ pre, ∃ hd, resolveE h = .ok hd ∧ hd.handle event = .ok ()) →
      eventHandleLoop resolveE event (pre ++ h0 :: post) =
        (.error ex, eventTrace event pre ++ [Action.resolve h0]) := by
  intro pre
  induction pre with
  | nil => intro _; simp [eventHandleLoop, eventTrace, hfail]
  | cons h rest ih =>
    intro hall
    obtain ⟨hd, hres, hh⟩ := hall h (by simp)
    have hrest := fun x hx => hall x (List.mem_cons_of_mem _ hx)
    simp [eventHandleLoop, eventTrace, hres, hh, ih hrest]

/-- When one of the bound handlers raises, the handler loop stops at that
invocation: the earlier handlers ran, the failing handler was resolved and
invoked, and no later handler is resolved or invoked. -/
theorem eventHandleLoop_abort_handler (resolveE : Nat → Except Err EventHandler)
    (event : PyObj) (h0 : Nat) (post : List Nat) (hd : EventHandler) (ex : Err)
    (hres0 : resolveE h0 = .ok hd) (hfail : hd.handle event = .error ex) :
    ∀ (pre : List Nat),
      (∀ h ∈ pre, ∃ hdl, resolveE h = .ok hdl ∧ hdl.handle event = .ok ()) →
      eventHandleLoop resolveE event (pre ++ h0 :: post) =
        (.error ex, eventTrace event pre ++ [Action.resolve h0, Action.handle h0 event]) := by
  intro pre
  induction pre with
  | nil => intro _; simp [eventHandleLoop, eventTrace, hres0, hfail]
  | cons h rest ih =>
    intro hall
    obtain ⟨hdl, hres, hh⟩ := hall h (by simp)
    have hrest := fun x hx => hall x (List.mem_cons_of_mem _ hx)
    simp [eventHandleLoop, eventTrace, hres, hh, ih hrest]

/-!
Request-dispatch lemmas.
-/

/-- Characterization of a fully successful `RequestDispatcher.dispatch`:
one container resolution of the bound handler type and one invocation of
the middleware-wrapped entry point, returning the response paired with the
handler's accumulated events. -/
theorem requestDispatch_ok (rm : RequestMap) (resolve : Nat → Except Err RequestHandler)
    (chain : MiddlewareChain) (request : PyObj) (hty : Nat) (handler : RequestHandler)
    (resp : Option PyObj) (evs : List PyObj)
    (hget : rm.get request.ty = .ok hty)
    (hres : resolve hty = .ok handler)
    (hrun : chain.wrap handler.handle request handler.events0 = (.ok resp, evs)) :
    requestDispatch rm resolve chain request =
      (.ok ⟨resp, evs⟩, [Action.resolve hty, Action.invoke request]) := by
  unfold requestDispatch
  rw [hget]
  simp only [hres, hrun]

/-- A failure of the wrapped entry point (a middleware or handler
exception) propagates unmodified out of `RequestDispatcher.dispatch`. -/
theorem requestDispatch_handle_err (rm : RequestMap) (resolve : Nat → Except Err RequestHandler)
    (chain : MiddlewareChain) (request : PyObj) (hty : Nat) (handler : RequestHandler)
    (ex : Err) (evs : List PyObj)
    (hget : rm.get request.ty = .ok hty)
    (hres : resolve hty = .ok handler)
    (hrun : chain.wrap handler.handle request handler.events0 = (.error ex, evs)) :
    requestDispatch rm resolve chain request =
      (.error ex, [Action.resolve hty, Action.invoke request]) := by
  unfold requestDispatch
  rw [hget]
  simp only [hres, hrun]

/-- A container failure propagates unmodified out of
`RequestDispatcher.dispatch`, after exactly one resolution attempt. -/
theorem requestDispatch_resolve_err (rm : RequestMap) (resolve : Nat → Except Err RequestHandler)
    (chain : MiddlewareChain) (request : PyObj) (hty : Nat) (ex : Err)
    (hget : rm.get request.ty = .ok hty)
    (hres : resolve hty = .error ex) :
    requestDispatch rm resolve chain request = (.error ex, [Action.resolve hty]) := by
  unfold requestDispatch
  rw [hget]
  simp only [hres]

/-- `RequestDispatcher.dispatch` performs no emitter call: its trace never
contains an emit action. -/
theorem requestDispatch_no_emit (rm : RequestMap) (resolve : Nat → Except Err RequestHandler)
    (chain : MiddlewareChain) (request : PyObj) (e : PyObj) :
    Action.emit e ∉ (requestDispatch rm resolve chain request).2 := by
  unfold requestDispatch
  cases hget : rm.get request.ty with
  | error ex => simp
  | ok hty =>
    simp only
    cases hres : resolve hty with
    | error ex => simp [hres]
    | ok handler =>
      cases hrun : chain.wrap handler.handle request handler.events0 with
      | mk r evs => cases r <;> simp [hres, hrun]

/-- A dispatch failure passes through `RequestMediator.send` unmodified:
the mediator adds no handling of its own. -/
theorem requestSend_of_dispatch_err (rm : RequestMap) (resolve : Nat → Except Err RequestHandler)
    (chain : MiddlewareChain) (emitter : Option (PyObj → Except Err Unit))
    (request : PyObj) (ex : Err) (tr : List Action)
    (hdisp : requestDispatch rm resolve chain request = (.error ex, tr)) :
    requestSend rm resolve chain emitter request = (.error ex, tr) := by
  unfold requestSend
  rw [hdisp]

end Cqrs

namespace Cqrs

/-- C4: for every request whose type has no binding in the `RequestMap`,
`RequestDispatcher.dispatch` fails with a Routing Error naming the request's
type, and its trace is empty — in particular the container's `resolve` is
never called in that dispatch. -/
theorem c4_unbound_request_routing_error (rm : RequestMap)
    (resolve : Nat → Except Err RequestHandler) (chain : MiddlewareChain)
    (request : PyObj) (hunbound : rm.bindings.lookup request.ty = none) :
    requestDispatch rm resolve chain request = (.error (.routing request.ty), []) := by
  unfold requestDispatch RequestMap.get
  rw [hunbound]

/-- C5: for every event whose type has zero bound handlers in the
`EventMap`, `EventDispatcher.dispatch` returns successfully and its trace is
exactly one warning referencing the event's type — no container resolution
and no handler invocation occur. -/
theorem c5_unbound_event_warns_and_succeeds (em : EventMap)
    (resolveE : Nat → Except Err EventHandler) (event : PyObj)
    (hnone : em.get event.ty = []) :
    eventDispatch em resolveE event = (.ok (), [Action.warn event.ty]) := by
  simp [eventDispatch, eventHandleLoop, hnone]

/-- C6: for every event whose type has at least one bound handler type,
`EventDispatcher.dispatch` resolves and invokes exactly one handler instance
per bound type, strictly sequentially, in binding order (the trace is one
resolution followed by one invocation per handler type, in that order), and
returns successfully; no warning is logged. -/
theorem c6_event_dispatch_invokes_in_binding_order (em : EventMap)
    (resolveE : Nat → Except Err EventHandler) (event : PyObj) (hs : List Nat)
    (hbound : em.get event.ty = hs) (hne : hs ≠ [])
    (hres : ∀ h ∈ hs, ∃ hd, resolveE h = .ok hd ∧ hd.handle event = .ok ()) :
    eventDispatch em resolveE event = (.ok (), eventTrace event hs) := by
  have hemp : hs.isEmpty = false := by
    cases hs with
    | nil => exact absurd rfl hne
    | cons a as => rfl
  unfold eventDispatch
  rw [hbound]
  dsimp only
  rw [eventHandleLoop_all_ok resolveE event hs hres, hemp]
  simp

/-- C9: for every request type bound to a handler type in the `RequestMap`,
whenever the container resolves a handler instance,
`RequestDispatcher.dispatch` performs exactly one `container.resolve` call
(with the bound handler type) and exactly one invocation of the
middleware-wrapped handle entry point (with the request): its trace is
precisely those two actions, whatever the invocation's outcome. -/
theorem c9_bound_request_resolves_and_invokes_once (rm : RequestMap)
    (resolve : Nat → Except Err RequestHandler) (chain : MiddlewareChain)
    (request : PyObj) (hty : Nat) (handler : RequestHandler)
    (hget : rm.get request.ty = .ok hty)
    (hres : resolve hty = .ok handler) :
    (requestDispatch rm resolve chain request).2 =
      [Action.resolve hty, Action.invoke request] := by
  unfold requestDispatch
  rw [hget]
  simp only [hres]
  cases hrun : chain.wrap handler.handle request handler.events0 with
  | mk r evs => cases r <;> simp [hrun]

end Cqrs

namespace Cqrs

/-- C1: for every dispatch whose command handler recorded events
`[e1, ..., en]` in that production order (the `events` list of the returned
dispatch result), with an `EventEmitter` configured whose emits complete
normally, `RequestMediator.send` appends to the dispatch trace exactly one
emit per recorded event, in last-in-first-out order (`en` first, `e1`
last) — each emit is awaited before the next, until the list is empty. -/
theorem c1_send_emits_events_lifo (rm : RequestMap)
    (resolve : Nat → Except Err RequestHandler) (chain : MiddlewareChain)
    (em : PyObj → Except Err Unit) (request : PyObj)
    (dr : RequestDispatchResult) (tr : List Action)
    (hdisp : requestDispatch rm resolve chain request = (.ok dr, tr))
    (hall : ∀ e ∈ dr.events, em e = .ok ()) :
    requestSend rm resolve chain (some em) request =
      (.ok dr.response, tr ++ dr.events.reverse.map Action.emit) := by
  unfold requestSend
  rw [hdisp]
  dsimp only
  by_cases hemp : dr.events = []
  · simp [hemp]
  · rw [if_neg (by simp [hemp])]
    unfold sendEvents
    dsimp only
    rw [drainLoop_emits_reverse em dr.events hall]

/-- C3: for every request whose dispatch succeeds, `RequestMediator.send`
returns exactly the response the wrapped handler invocation produced,
unchanged (including `none`), however many events the handler accumulated
and whether or not an `EventEmitter` is configured (a configured emitter's
emits completing normally). -/
theorem c3_send_returns_handler_response (rm : RequestMap)
    (resolve : Nat → Except Err RequestHandler) (chain : MiddlewareChain)
    (emitter : Option (PyObj → Except Err Unit)) (request : PyObj)
    (hty : Nat) (handler : RequestHandler) (resp : Option PyObj) (evs : List PyObj)
    (hget : rm.get request.ty = .ok hty)
    (hres : resolve hty = .ok handler)
    (hrun : chain.wrap handler.handle request handler.events0 = (.ok resp, evs))
    (hemit : ∀ em, emitter = some em → ∀ e ∈ evs, em e = .ok ()) :
    (requestSend rm resolve chain emitter request).1 = .ok resp := by
  have hdisp := requestDispatch_ok rm resolve chain request hty handler resp evs
    hget hres hrun
  unfold requestSend
  rw [hdisp]
  dsimp only
  by_cases hemp : evs = []
  · simp [hemp]
  · rw [if_neg (by simp [hemp])]
    cases emitter with
    | none => rfl
    | some em =>
      unfold sendEvents
      dsimp only
      rw [drainLoop_emits_reverse em evs (hemit em rfl)]

/-- C8: for every successful dispatch, if no `EventEmitter` is configured on
the `RequestMediator`, the recorded events are silently discarded: `send`
adds nothing to the dispatch trace (in particular no emit call occurs — the
dispatch trace itself never contains one), raises no error, and still
returns the handler's response. -/
theorem c8_no_emitter_discards_events (rm : RequestMap)
    (resolve : Nat → Except Err RequestHandler) (chain : MiddlewareChain)
    (request : PyObj) (dr : RequestDispatchResult) (tr : List Action)
    (hdisp : requestDispatch rm resolve chain request = (.ok dr, tr)) :
    requestSend rm resolve chain none request = (.ok dr.response, tr) ∧
      ∀ e, Action.emit e ∉ tr := by
  constructor
  · unfold requestSend
    rw [hdisp]
    dsimp only
    by_cases hemp : dr.events = []
    · simp [hemp]
    · rw [if_neg (by simp [hemp])]
      unfold sendEvents
      simp
  · intro e
    have hnoemit := requestDispatch_no_emit rm resolve chain request e
    rw [hdisp] at hnoemit
    exact hnoemit

/-- C7: the dispatch and mediator layers are a transparent conduit for
failures.  Conjunct 1: any dispatch failure passes through
`RequestMediator.send` unmodified, with no recovery.  Conjunct 2: a
container failure on the command side propagates unmodified out of
`RequestDispatcher.dispatch` after the single resolution attempt.
Conjunct 3: a middleware/handler exception on the command side propagates
unmodified out of `RequestDispatcher.dispatch`.  Conjunct 4: on the event
side, a container failure while resolving one bound handler propagates
immediately and aborts the remaining bound handlers.  Conjunct 5: on the
event side, an exception in one handler propagates immediately — the
earlier handlers ran, the failing one was resolved and invoked, and no
later bound handler is resolved or invoked in that dispatch call. -/
theorem c7_failures_propagate_unmodified :
    (∀ (rm : RequestMap) (resolve : Nat → Except Err RequestHandler)
        (chain : MiddlewareChain) (emitter : Option (PyObj → Except Err Unit))
        (request : PyObj) (ex : Err) (tr : List Action),
        requestDispatch rm resolve chain request = (.error ex, tr) →
        requestSend rm resolve chain emitter request = (.error ex, tr)) ∧
    (∀ (rm : RequestMap) (resolve : Nat → Except Err RequestHandler)
        (chain : MiddlewareChain) (request : PyObj) (hty : Nat) (ex : Err),
        rm.get request.ty = .ok hty → resolve hty = .error ex →
        requestDispatch rm resolve chain request = (.error ex, [Action.resolve hty])) ∧
    (∀ (rm : RequestMap) (resolve : Nat → Except Err RequestHandler)
        (chain : MiddlewareChain) (request : PyObj) (hty : Nat)
        (handler : RequestHandler) (ex : Err) (evs : List PyObj),
        rm.get request.ty = .ok hty → resolve hty = .ok handler →
        chain.wrap handler.handle request handler.events0 = (.error ex, evs) →
        requestDispatch rm resolve chain request =
          (.error ex, [Action.resolve hty, Action.invoke request])) ∧
    (∀ (em : EventMap) (resolveE : Nat → Except Err EventHandler) (event : PyObj)
        (pre : List Nat) (h0 : Nat) (post : List Nat) (ex : Err),
        em.get event.ty = pre ++ h0 :: post →
        (∀ h ∈ pre, ∃ hd, resolveE h = .ok hd ∧ hd.handle event = .ok ()) →
        resolveE h0 = .error ex →
        eventDispatch em resolveE event =
          (.error ex, eventTrace event pre ++ [Action.resolve h0])) ∧
    (∀ (em : EventMap) (resolveE : Nat → Except Err EventHandler) (event : PyObj)
        (pre : List Nat) (h0 : Nat) (post : List Nat) (hd : EventHandler) (ex : Err),
        em.get event.ty = pre ++ h0 :: post →
        (∀ h ∈ pre, ∃ hdl, resolveE h = .ok hdl ∧ hdl.handle event = .ok ()) →
        resolveE h0 = .ok hd → hd.handle event = .error ex →
        eventDispatch em resolveE event =
          (.error ex,
            eventTrace event pre ++ [Action.resolve h0, Action.handle h0 event])) := by
  refine ⟨?_, ?_, ?_, ?_, ?_⟩
  · intro rm resolve chain emitter request ex tr hdisp
    exact requestSend_of_dispatch_err rm resolve chain emitter request ex tr hdisp
  · intro rm resolve chain request hty ex hget hres
    exact requestDispatch_resolve_err rm resolve chain request hty ex hget hres
  · intro rm resolve chain request hty handler ex evs hget hres hrun
    exact requestDispatch_handle_err rm resolve chain request hty handler ex evs
      hget hres hrun
  · intro em resolveE event pre h0 post ex hbound hpre hfail
    unfold eventDispatch
    rw [hbound]
    dsimp only
    rw [eventHandleLoop_abort_resolve resolveE event h0 post ex hfail pre hpre]
    simp
  · intro em resolveE event pre h0 post hd ex hbound hpre hres0 hfail
    unfold eventDispatch
    rw [hbound]
    dsimp only
    rw [eventHandleLoop_abort_handler resolveE event h0 post hd ex hres0 hfail pre hpre]
    simp

end Cqrs

namespace Cqrs

/-- C2: the `events` list of the dispatch result returned by
`RequestDispatcher.dispatch` is a snapshot (a fresh list with copied
contents, built by pydantic validation) of the handler's accumulated events
at return time: it equals the contents of the handler's accumulator when the
wrapped invocation finished, and mutating the handler's own `events` list
after dispatch returns leaves the result's `events` list unchanged.  The
hypotheses say the handler's accumulator refers to an allocated list and
that the wrapped invocation only allocates or mutates (never deallocates)
list objects, so the store can only grow. -/
theorem c2_dispatch_result_events_snapshot (rm : RequestMap)
    (resolve : Nat → Except Err HeapRequestHandler) (chain : List HeapMiddleware)
    (request : PyObj) (σ σ1 : Store) (hty : Nat) (handler : HeapRequestHandler)
    (dr : HRequestDispatchResult)
    (hget : rm.get request.ty = .ok hty)
    (hres : resolve hty = .ok handler)
    (hvalid : handler.eventsRef < σ.cells.length)
    (hmono : ∀ (r : PyObj) (σa : Store),
      σa.cells.length ≤ ((heapWrap chain handler.handle) r σa).2.cells.length)
    (hdisp : heapRequestDispatch rm resolve chain request σ = (.ok dr, σ1)) :
    σ1.read dr.eventsRef =
      ((heapWrap chain handler.handle) request σ).2.read handler.eventsRef ∧
    ∀ v, (σ1.write handler.eventsRef v).read dr.eventsRef = σ1.read dr.eventsRef := by
  unfold heapRequestDispatch at hdisp
  rw [hget] at hdisp
  simp only [hres] at hdisp
  cases hrun : heapWrap chain handler.handle request σ with
  | mk res σ2 =>
    rw [hrun] at hdisp
    cases res with
    | error ex => simp at hdisp
    | ok resp =>
      simp only [mkHDispatchResult] at hdisp
      have hdr : dr = ⟨resp, (σ2.alloc (σ2.read handler.eventsRef)).2⟩ := by
        have := congrArg Prod.fst hdisp
        simp at this
        exact this.symm
      have hσ1 : σ1 = (σ2.alloc (σ2.read handler.eventsRef)).1 := by
        have := congrArg Prod.snd hdisp
        exact this.symm
      have hgrow : σ.cells.length ≤ σ2.cells.length := by
        have := hmono request σ
        rw [hrun] at this
        exact this
      have hlt2 : handler.eventsRef < σ2.cells.length := lt_of_lt_of_le hvalid hgrow
      have hneq : handler.eventsRef ≠ (σ2.alloc (σ2.read handler.eventsRef)).2 := by
        simp only [Store.alloc]
        omega
      constructor
      · rw [hσ1, hdr]
        exact Store.read_alloc_self σ2 _
      · intro v
        rw [hσ1, hdr]
        exact Store.read_write_ne _ _ _ _ hneq

/-- C10: when the dispatch result carries a nonempty events list, the
event-forwarding phase of `RequestMediator.send` drains a copy of that
list: with an emitter configured whose emits complete normally, it returns
the dispatch result's response, the emitter receives exactly one emit per
recorded event (most recently produced first), and the dispatch result's
own `events` list is unchanged afterwards — same elements in the same order
as when dispatch returned. -/
theorem c10_send_drains_copy_preserves_result_events
    (em : PyObj → Except Err Unit) (dr : HRequestDispatchResult) (σ : Store)
    (hne : σ.read dr.eventsRef ≠ [])
    (hall : ∀ e ∈ σ.read dr.eventsRef, em e = .ok ()) :
    (heapSendAfterDispatch (some em) dr σ).1 = .ok dr.response ∧
    ((heapSendAfterDispatch (some em) dr σ).2.1).read dr.eventsRef = σ.read dr.eventsRef ∧
    (heapSendAfterDispatch (some em) dr σ).2.2 =
      (σ.read dr.eventsRef).reverse.map Action.emit := by
  have hlt : dr.eventsRef < σ.cells.length := Store.lt_of_read_ne_nil σ _ hne
  have hempf : (σ.read dr.eventsRef).isEmpty = false := by
    cases h2 : σ.read dr.eventsRef with
    | nil => exact absurd h2 hne
    | cons a as => rfl
  have hready : (σ.alloc (σ.read dr.eventsRef)).1.read (σ.alloc (σ.read dr.eventsRef)).2
      = σ.read dr.eventsRef := Store.read_alloc_self σ _
  have hkeep : (σ.alloc (σ.read dr.eventsRef)).1.read dr.eventsRef = σ.read dr.eventsRef :=
    Store.read_alloc_of_lt σ _ _ hlt
  have hneq : dr.eventsRef ≠ (σ.alloc (σ.read dr.eventsRef)).2 := by
    simp only [Store.alloc]
    omega
  have hallA : ∀ e ∈ (σ.alloc (σ.read dr.eventsRef)).1.read (σ.alloc (σ.read dr.eventsRef)).2,
      em e = .ok () := by
    rw [hready]
    exact hall
  obtain ⟨hok, htr⟩ := heapDrainLoop_all_ok em (σ.alloc (σ.read dr.eventsRef)).2
    ((σ.alloc (σ.read dr.eventsRef)).1.read (σ.alloc (σ.read dr.eventsRef)).2).length
    (σ.alloc (σ.read dr.eventsRef)).1 le_rfl hallA
  have hframe := heapDrainLoop_read_other em (σ.alloc (σ.read dr.eventsRef)).2 dr.eventsRef
    hneq ((σ.alloc (σ.read dr.eventsRef)).1.read (σ.alloc (σ.read dr.eventsRef)).2).length
    (σ.alloc (σ.read dr.eventsRef)).1 le_rfl
  unfold heapSendAfterDispatch heapSendEvents
  simp only [hempf, Bool.false_eq_true, if_false]
  cases hdl : heapDrainLoop em (σ.alloc (σ.read dr.eventsRef)).2
      (σ.alloc (σ.read dr.eventsRef)).1 with
  | mk res rest =>
    rw [hdl] at hok htr hframe
    obtain ⟨σ2, tr⟩ := rest
    cases res with
    | error ex => simp at hok
    | ok u =>
      rw [hready] at htr
      refine ⟨rfl, ?_, ?_⟩
      · exact hframe.trans hkeep
      · exact htr

end Cqrs

namespace Cqrs

/-- Concrete instance of the LIFO emission order: a handler that records
events `[⟨2,0⟩, ⟨2,1⟩]` makes `send` emit `⟨2,1⟩` first, then `⟨2,0⟩`. -/
theorem c1_send_emits_events_lifo_witness :
    requestSend ⟨[(0, 5)]⟩
      (fun _ => .ok ⟨fun r evs => (.ok (some ⟨1, r.payload⟩), evs ++ [⟨2, 0⟩, ⟨2, 1⟩]), []⟩)
      ⟨[]⟩ (some (fun _ => Except.ok ())) ⟨0, 7⟩ =
      (.ok (some ⟨1, 7⟩),
        [Action.resolve 5, Action.invoke ⟨0, 7⟩, Action.emit ⟨2, 1⟩, Action.emit ⟨2, 0⟩]) :=
  c1_send_emits_events_lifo ⟨[(0, 5)]⟩
    (fun _ => .ok ⟨fun r evs => (.ok (some ⟨1, r.payload⟩), evs ++ [⟨2, 0⟩, ⟨2, 1⟩]), []⟩)
    ⟨[]⟩ (fun _ => Except.ok ()) ⟨0, 7⟩
    ⟨some ⟨1, 7⟩, [⟨2, 0⟩, ⟨2, 1⟩]⟩ [Action.resolve 5, Action.invoke ⟨0, 7⟩]
    (by rfl) (fun e _ => rfl)

/-- Concrete instance of response passthrough, exercising the `None`
response with no emitter configured. -/
theorem c3_send_returns_handler_response_witness :
    (requestSend ⟨[(0, 5)]⟩
      (fun _ => .ok ⟨fun _ evs => (.ok none, evs ++ [⟨2, 0⟩]), []⟩)
      ⟨[]⟩ none ⟨0, 7⟩).1 = .ok none :=
  c3_send_returns_handler_response ⟨[(0, 5)]⟩
    (fun _ => .ok ⟨fun _ evs => (.ok none, evs ++ [⟨2, 0⟩]), []⟩)
    ⟨[]⟩ none ⟨0, 7⟩ 5 ⟨fun _ evs => (.ok none, evs ++ [⟨2, 0⟩]), []⟩ none [⟨2, 0⟩]
    (by rfl) (by rfl) (by rfl) (fun em h => nomatch h)

/-- Concrete instance of the Routing Error on an unbound request type: an
empty request map rejects request type 3 without calling the container. -/
theorem c4_unbound_request_routing_error_witness :
    requestDispatch ⟨[]⟩ (fun _ => .error (.resolution 0)) ⟨[]⟩ ⟨3, 0⟩ =
      (.error (.routing 3), []) :=
  c4_unbound_request_routing_error ⟨[]⟩ (fun _ => .error (.resolution 0)) ⟨[]⟩ ⟨3, 0⟩ rfl

/-- Concrete instance of the unbound-event warning: an empty event map makes
dispatch of an event of type 4 succeed with exactly one warning. -/
theorem c5_unbound_event_warns_and_succeeds_witness :
    eventDispatch ⟨[]⟩ (fun _ => .error (.resolution 0)) ⟨4, 0⟩ =
      (.ok (), [Action.warn 4]) :=
  c5_unbound_event_warns_and_succeeds ⟨[]⟩ (fun _ => .error (.resolution 0)) ⟨4, 0⟩ rfl

/-- Concrete instance of in-order event fan-out: handler types `[8, 9]`
bound to event type 4 are each resolved and invoked once, in that order. -/
theorem c6_event_dispatch_invokes_in_binding_order_witness :
    eventDispatch ⟨[(4, [8, 9])]⟩ (fun _ => .ok ⟨fun _ => .ok ()⟩) ⟨4, 1⟩ =
      (.ok (),
        [Action.resolve 8, Action.handle 8 ⟨4, 1⟩,
          Action.resolve 9, Action.handle 9 ⟨4, 1⟩]) :=
  c6_event_dispatch_invokes_in_binding_order ⟨[(4, [8, 9])]⟩
    (fun _ => .ok ⟨fun _ => .ok ()⟩) ⟨4, 1⟩ [8, 9] rfl (by simp)
    (fun h _ => ⟨⟨fun _ => .ok ()⟩, rfl, rfl⟩)

/-- Concrete instances of failure propagation: a container failure passes
through `send` unmodified, and an exception in the first of two bound event
handlers aborts the second. -/
theorem c7_failures_propagate_unmodified_witness :
    requestSend ⟨[(0, 5)]⟩ (fun _ => .error (.resolution 5)) ⟨[]⟩ none ⟨0, 7⟩ =
      (.error (.resolution 5), [Action.resolve 5]) ∧
    eventDispatch ⟨[(4, [8, 9])]⟩
      (fun h => if h = 8 then .ok ⟨fun _ => .ok ()⟩ else .ok ⟨fun _ => .error (.handlerErr 1)⟩)
      ⟨4, 1⟩ =
      (.error (.handlerErr 1),
        [Action.resolve 8, Action.handle 8 ⟨4, 1⟩,
          Action.resolve 9, Action.handle 9 ⟨4, 1⟩]) :=
  ⟨c7_failures_propagate_unmodified.1 ⟨[(0, 5)]⟩ (fun _ => .error (.resolution 5)) ⟨[]⟩
      none ⟨0, 7⟩ (.resolution 5) [Action.resolve 5] rfl,
    c7_failures_propagate_unmodified.2.2.2.2 ⟨[(4, [8, 9])]⟩
      (fun h => if h = 8 then .ok ⟨fun _ => .ok ()⟩ else .ok ⟨fun _ => .error (.handlerErr 1)⟩)
      ⟨4, 1⟩ [8] 9 [] ⟨fun _ => .error (.handlerErr 1)⟩ (.handlerErr 1) rfl
      (by
        intro h hm
        simp at hm
        subst hm
        exact ⟨⟨fun _ => .ok ()⟩, rfl, rfl⟩)
      rfl rfl⟩

/-- Concrete instance of silent event discard: with no emitter configured,
`send` returns the response, adds nothing to the trace, and the trace holds
no emit call. -/
theorem c8_no_emitter_discards_events_witness :
    requestSend ⟨[(0, 5)]⟩
      (fun _ => .ok ⟨fun r evs => (.ok (some ⟨1, r.payload⟩), evs ++ [⟨2, 0⟩, ⟨2, 1⟩]), []⟩)
      ⟨[]⟩ none ⟨0, 7⟩ =
      (.ok (some ⟨1, 7⟩), [Action.resolve 5, Action.invoke ⟨0, 7⟩]) ∧
    Action.emit ⟨2, 0⟩ ∉ [Action.resolve 5, Action.invoke ⟨0, 7⟩] := by
  have h := c8_no_emitter_discards_events ⟨[(0, 5)]⟩
    (fun _ => .ok ⟨fun r evs => (.ok (some ⟨1, r.payload⟩), evs ++ [⟨2, 0⟩, ⟨2, 1⟩]), []⟩)
    ⟨[]⟩ ⟨0, 7⟩ ⟨some ⟨1, 7⟩, [⟨2, 0⟩, ⟨2, 1⟩]⟩ [Action.resolve 5, Action.invoke ⟨0, 7⟩]
    (by rfl)
  exact ⟨h.1, h.2 ⟨2, 0⟩⟩

/-- Concrete instance of single resolution and invocation: request type 0
bound to handler type 5 yields exactly the two-action trace. -/
theorem c9_bound_request_resolves_and_invokes_once_witness :
    (requestDispatch ⟨[(0, 5)]⟩
      (fun _ => .ok ⟨fun r evs => (.ok (some ⟨1, r.payload⟩), evs ++ [⟨2, 0⟩]), []⟩)
      ⟨[]⟩ ⟨0, 7⟩).2 = [Action.resolve 5, Action.invoke ⟨0, 7⟩] :=
  c9_bound_request_resolves_and_invokes_once ⟨[(0, 5)]⟩
    (fun _ => .ok ⟨fun r evs => (.ok (some ⟨1, r.payload⟩), evs ++ [⟨2, 0⟩]), []⟩)
    ⟨[]⟩ ⟨0, 7⟩ 5 ⟨fun r evs => (.ok (some ⟨1, r.payload⟩), evs ++ [⟨2, 0⟩]), []⟩ rfl rfl

/-- Concrete instance of the snapshot property: the handler mutates its list
at reference 0; the dispatch result holds the fresh reference 1, which keeps
its contents when reference 0 is overwritten afterwards. -/
theorem c2_dispatch_result_events_snapshot_witness :
    (⟨[[⟨2, 0⟩], [⟨2, 0⟩]]⟩ : Store).read 1 = [⟨2, 0⟩] ∧
    ((⟨[[⟨2, 0⟩], [⟨2, 0⟩]]⟩ : Store).write 0 [⟨9, 9⟩]).read 1 = [⟨2, 0⟩] := by
  have h := c2_dispatch_result_events_snapshot ⟨[(0, 5)]⟩
    (fun _ => .ok ⟨fun r σa => (.ok (some ⟨1, r.payload⟩), σa.write 0 (σa.read 0 ++ [⟨2, 0⟩])), 0⟩)
    [] ⟨0, 7⟩ ⟨[[]]⟩ ⟨[[⟨2, 0⟩], [⟨2, 0⟩]]⟩ 5
    ⟨fun r σa => (.ok (some ⟨1, r.payload⟩), σa.write 0 (σa.read 0 ++ [⟨2, 0⟩])), 0⟩
    ⟨some ⟨1, 7⟩, 1⟩ (by rfl) (by rfl) (by decide)
    (by
      intro r σa
      simp [heapWrap, Store.write])
    (by rfl)
  exact ⟨h.1, h.2 [⟨9, 9⟩]⟩

/-- Concrete instance of drain-from-a-copy: two recorded events are emitted
in LIFO order while the dispatch result's own list keeps both elements. -/
theorem c10_send_drains_copy_preserves_result_events_witness :
    (heapSendAfterDispatch (some (fun _ => Except.ok ())) ⟨some ⟨1, 7⟩, 0⟩
        ⟨[[⟨2, 0⟩, ⟨2, 1⟩]]⟩).1 = .ok (some ⟨1, 7⟩) ∧
    ((heapSendAfterDispatch (some (fun _ => Except.ok ())) ⟨some ⟨1, 7⟩, 0⟩
        ⟨[[⟨2, 0⟩, ⟨2, 1⟩]]⟩).2.1).read 0 = [⟨2, 0⟩, ⟨2, 1⟩] ∧
    (heapSendAfterDispatch (some (fun _ => Except.ok ())) ⟨some ⟨1, 7⟩, 0⟩
        ⟨[[⟨2, 0⟩, ⟨2, 1⟩]]⟩).2.2 = [Action.emit ⟨2, 1⟩, Action.emit ⟨2, 0⟩] :=
  c10_send_drains_copy_preserves_result_events (fun _ => Except.ok ()) ⟨some ⟨1, 7⟩, 0⟩
    ⟨[[⟨2, 0⟩, ⟨2, 1⟩]]⟩ (by decide) (fun e _ => rfl)

end Cqrs
